import Mathlib

/-!
Verification of the package admission engine described in `spec.md` against
the repository. The repository ships the test suite
(`src/test/txpackage_tests.cpp`) and the warning store (`src/warnings.cpp`);
the production bodies of `CheckPackage` and `ProcessNewPackage` are not part
of the repository snapshot, so they are modelled here from the spec (§4.1,
§4.2, §6, §7), with the behavior the tests pin down. The warning store is
embedded directly from `src/warnings.cpp`.
-/

/-- Maximum number of transactions allowed in a package (spec §3: 25 items;
`MAX_PACKAGE_COUNT` in the test file). -/
def MAX_PACKAGE_COUNT : Nat := 25

/-- Maximum aggregate package virtual size in KvB (spec §3: 101 thousand
virtual-size units; comparisons scale it by 1000). -/
def MAX_PACKAGE_SIZE : Nat := 101

/-- Modelled from the spec: a transaction, opaque to the core (spec §3): a
content identity `txid`, a witness identity `wtxid`, a virtual size, and
inputs referencing prior outputs as (txid, output index) pairs. -/
structure Tx where
  txid : Nat
  wtxid : Nat
  vsize : Nat
  inputs : List (Nat × Nat)
deriving DecidableEq, Repr

/-- Modelled from the spec: per-transaction outcome (spec §3
`TxValidationState`): validity flag and reject-reason string. -/
structure TxValidationState where
  isValid : Bool
  rejectReason : String
deriving DecidableEq, Repr

/-- Aggregate result kind of a package validation, as in the enum the test
file compares against: unset (success), policy-level failure (the package
shape is malformed), or item-level failure (a member transaction failed). -/
inductive PackageValidationResult where
  | PCKG_RESULT_UNSET
  | PCKG_POLICY
  | PCKG_TX
deriving DecidableEq, Repr

/-- Modelled from the spec: aggregate outcome for a whole package (spec §3
`PackageValidationState`): validity flag, result kind, reason string. -/
structure PackageValidationState where
  isValid : Bool
  result : PackageValidationResult
  rejectReason : String
deriving DecidableEq, Repr

/-- Modelled from the spec: the Pending-Transaction Pool (spec §6), exposing
`size` and `insert`. -/
structure Pool where
  txs : List Tx
deriving DecidableEq, Repr

/-- The pool's observable size (spec §6: `size() -> integer`). -/
def Pool.size (p : Pool) : Nat := p.txs.length

/-- Insert a transaction into the pool (spec §6: `insert(transaction)`). -/
def Pool.insert (p : Pool) (tx : Tx) : Pool := ⟨p.txs ++ [tx]⟩

/-- Modelled from the spec: the read-only active-tip accessor (spec §6). -/
structure Chainstate where
  tip : Nat
deriving DecidableEq, Repr

/-- Sum of the members' virtual sizes, accumulated incrementally over the
package (spec §4.1 Rule 2). -/
def totalVsize (txns : List Tx) : Nat :=
  txns.foldl (fun acc tx => acc + tx.vsize) 0

/-- Modelled from the spec: the Package Sanitizer `CheckPackage` (spec §4.1).
Rule 1 (count) runs first; Rule 2 (size) compares the accumulated virtual
size against `MAX_PACKAGE_SIZE` scaled by 1000. The size rule applies only
to packages of more than one element: the spec's singleton special case
(§4.2) requires a one-element oversized package to reach per-transaction
validation and fail item-level with reason "tx-size", which the singleton
test (`txpackage_tests.cpp` lines 103-112) confirms, so `CheckPackage`
cannot reject it at policy level. -/
def CheckPackage (txns : List Tx) : Bool × PackageValidationState :=
  if txns.length > MAX_PACKAGE_COUNT then
    (false, ⟨false, PackageValidationResult.PCKG_POLICY, "package-too-many-transactions"⟩)
  else if txns.length > 1 ∧ totalVsize txns > MAX_PACKAGE_SIZE * 1000 then
    (false, ⟨false, PackageValidationResult.PCKG_POLICY, "package-too-large"⟩)
  else
    (true, ⟨true, PackageValidationResult.PCKG_RESULT_UNSET, ""⟩)

/-- Modelled from the spec: the external Validation Engine (spec §6), a pure
function of the chain tip, the pool, the earlier same-package members that
already validated successfully (the in-package spend view behind the
`allow_in_package_spends` flag), and the candidate transaction. -/
abbrev Engine := Chainstate → Pool → List Tx → Tx → TxValidationState

/-- Modelled from the spec: one per-transaction validation step (spec §7): a
member whose own virtual size exceeds the aggregate limit fails with reason
"tx-size"; every other verdict is the opaque Validation Engine's. -/
def validateTx (E : Engine) (chain : Chainstate) (pool : Pool)
    (accepted : List Tx) (tx : Tx) : TxValidationState :=
  if tx.vsize > MAX_PACKAGE_SIZE * 1000 then ⟨false, "tx-size"⟩
  else E chain pool accepted tx

/-- Modelled from the spec: the per-transaction loop of the Package
Processor (spec §4.2): strictly in package order, validate each member
against the current pool with the in-package spend view, record the outcome
keyed by witness identity, and when not a dry run commit each
individually-valid member to the pool before the next member is validated
(spec §6). -/
def processTxs (E : Engine) (chain : Chainstate) (dry_run : Bool) :
    Pool → List Tx → List Tx → List (Nat × TxValidationState) × Pool
  | pool, _, [] => ([], pool)
  | pool, accepted, tx :: rest =>
    let st := validateTx E chain pool accepted tx
    let pool' := if st.isValid && !dry_run then pool.insert tx else pool
    let accepted' := if st.isValid then accepted ++ [tx] else accepted
    let r := processTxs E chain dry_run pool' accepted' rest
    ((tx.wtxid, st) :: r.1, r.2)

/-- Modelled from the spec: the engine's return value (spec §3): the
aggregate state plus the mapping from witness identity to per-transaction
state. Field names follow the test file (`m_state`, `m_tx_results`). -/
structure PackageMempoolAcceptResult where
  m_state : PackageValidationState
  m_tx_results : List (Nat × TxValidationState)
deriving DecidableEq, Repr

/-- Modelled from the spec: the Package Processor `ProcessNewPackage`
(spec §4.2). The Sanitizer runs first; a failing package is never forwarded
to per-transaction validation and nothing is committed. Otherwise each
member is validated in package order, the aggregate is valid iff every
member validated, and an item-level failure yields kind `PCKG_TX` with
reason "transaction failed" (spec §4.2 aggregation rule). The returned pool
is the pool after any commits (unchanged when `dry_run`). -/
def ProcessNewPackage (E : Engine) (chain : Chainstate) (pool : Pool)
    (package : List Tx) (dry_run : Bool) : PackageMempoolAcceptResult × Pool :=
  let check := CheckPackage package
  if check.1 then
    let r := processTxs E chain dry_run pool [] package
    if r.1.all (fun e => e.2.isValid) then
      (⟨⟨true, PackageValidationResult.PCKG_RESULT_UNSET, ""⟩, r.1⟩, r.2)
    else
      (⟨⟨false, PackageValidationResult.PCKG_TX, "transaction failed"⟩, r.1⟩, r.2)
  else
    (⟨check.2, []⟩, pool)

/-- The members of a package that were committed, given the per-transaction
results aligned with the package in order: exactly the individually-valid
members (spec §5: commit is per-member, not all-or-nothing). -/
def committedOf : List Tx → List (Nat × TxValidationState) → List Tx
  | tx :: txs, e :: es =>
    if e.2.isValid then tx :: committedOf txs es else committedOf txs es
  | _, _ => []

/-- State of the process-wide warning store (`src/warnings.cpp` lines
15-18): the misc warning string and the two large-work flags. -/
structure WarningsState where
  strMiscWarning : String
  fLargeWorkForkFound : Bool
  fLargeWorkInvalidChainFound : Bool
deriving DecidableEq, Repr

/-- A warning entry appended to `warnings_verbose` in `GetWarnings`
(`src/warnings.cpp` lines 44-69), tagged by which branch produced it. -/
inductive Warning where
  | preRelease
  | misc (s : String)
  | largeWorkFork
  | largeWorkInvalidChain
deriving DecidableEq, Repr

/-- The list of warnings collected by `GetWarnings` (`src/warnings.cpp`
lines 51-69): the pre-release warning when the build is not a release, the
misc warning when set, then the fork warning, or else the invalid-chain
warning (if/else-if at lines 63-69). -/
def GetWarningsList (clientVersionIsRelease : Bool) (s : WarningsState) : List Warning :=
  (if clientVersionIsRelease then [] else [Warning.preRelease]) ++
  (if s.strMiscWarning ≠ "" then [Warning.misc s.strMiscWarning] else []) ++
  (if s.fLargeWorkForkFound then [Warning.largeWorkFork]
   else if s.fLargeWorkInvalidChainFound then [Warning.largeWorkInvalidChain]
   else [])

/-- Rendering of one warning to its message string (`src/warnings.cpp`
lines 52-68). -/
def Warning.text : Warning → String
  | Warning.preRelease => "This is a pre-release test build - use at your own risk - do not use for mining or merchant applications"
  | Warning.misc s => s
  | Warning.largeWorkFork => "Warning: The network does not appear to fully agree! Some miners appear to be experiencing issues."
  | Warning.largeWorkInvalidChain => "Warning: We do not appear to fully agree with our peers! You may need to upgrade, or other nodes may need to upgrade."

/-- `GetWarnings` (`src/warnings.cpp` lines 44-76): verbose mode joins all
collected warnings with "<hr />"; concise mode returns the last collected
warning, or the empty string when none was set. -/
def GetWarnings (clientVersionIsRelease : Bool) (s : WarningsState) (verbose : Bool) : String :=
  let ws := GetWarningsList clientVersionIsRelease s
  if verbose then String.intercalate "<hr />" (ws.map Warning.text)
  else ((ws.getLast?).map Warning.text).getD ""

/-- An accept-all stand-in for the opaque Validation Engine, used to
instantiate the universally-quantified theorems at concrete inputs. -/
def acceptAll : Engine := fun _ _ _ _ => ⟨true, ""⟩

/-! ### Helper lemmas -/

/-- The per-transaction loop records outcomes keyed by witness identity,
strictly in package order. -/
lemma processTxs_map_fst (E : Engine) (chain : Chainstate) (d : Bool) :
    ∀ (txs : List Tx) (pool : Pool) (acc : List Tx),
      ((processTxs E chain d pool acc txs).1).map Prod.fst = txs.map Tx.wtxid := by
  intro txs
  induction txs with
  | nil => intro pool acc; simp [processTxs]
  | cons tx rest ih => intro pool acc; simp [processTxs, ih]

/-- In dry-run mode the per-transaction loop never touches the pool. -/
lemma processTxs_dry_pool (E : Engine) (chain : Chainstate) :
    ∀ (txs : List Tx) (pool : Pool) (acc : List Tx),
      (processTxs E chain true pool acc txs).2 = pool := by
  intro txs
  induction txs with
  | nil => intro pool acc; simp [processTxs]
  | cons tx rest ih => intro pool acc; simp [processTxs, ih]

/-- In commit mode the final pool is the initial pool extended by exactly the
individually-valid members, in package order. -/
lemma processTxs_commit_pool (E : Engine) (chain : Chainstate) :
    ∀ (txs : List Tx) (pool : Pool) (acc : List Tx),
      (processTxs E chain false pool acc txs).2.txs =
        pool.txs ++ committedOf txs (processTxs E chain false pool acc txs).1 := by
  intro txs
  induction txs with
  | nil => intro pool acc; simp [processTxs, committedOf]
  | cons tx rest ih =>
    intro pool acc
    by_cases h : (validateTx E chain pool acc tx).isValid
    · simp [processTxs, committedOf, h, ih, Pool.insert]
    · simp [processTxs, committedOf, h, ih]

/-- When the Sanitizer accepts, `ProcessNewPackage` forwards the loop's
per-transaction results unchanged, so the result keys are the members'
witness identities in package order. -/
lemma processNewPackage_map_fst (E : Engine) (chain : Chainstate) (pool : Pool)
    (pkg : List Tx) (d : Bool) (hok : (CheckPackage pkg).1 = true) :
    ((ProcessNewPackage E chain pool pkg d).1.m_tx_results).map Prod.fst =
      pkg.map Tx.wtxid := by
  by_cases h : ((processTxs E chain d pool [] pkg).1).all (fun e => e.2.isValid) <;>
    simp [ProcessNewPackage, hok, h, processTxs_map_fst]

/-- A dry-run call returns the pool it was given. -/
lemma processNewPackage_dry_pool (E : Engine) (chain : Chainstate) (pool : Pool)
    (pkg : List Tx) : (ProcessNewPackage E chain pool pkg true).2 = pool := by
  by_cases hok : (CheckPackage pkg).1
  · by_cases h : ((processTxs E chain true pool [] pkg).1).all (fun e => e.2.isValid) <;>
      simp [ProcessNewPackage, hok, h, processTxs_dry_pool]
  · simp [ProcessNewPackage, hok]

/-! ### Claims about the Package Sanitizer -/

/-- C3: a package with more than `MAX_PACKAGE_COUNT` members is rejected at
policy level with reason "package-too-many-transactions", regardless of the
members' content — the count rule runs before any size computation. -/
theorem C3_too_many_transactions (pkg : List Tx)
    (h : pkg.length > MAX_PACKAGE_COUNT) :
    CheckPackage pkg =
      (false, ⟨false, PackageValidationResult.PCKG_POLICY,
        "package-too-many-transactions"⟩) := by
  unfold CheckPackage
  rw [if_pos h]

/-- Witness for C3 at a concrete 26-member package. -/
theorem C3_too_many_transactions_witness :
    (List.replicate 26 (⟨0, 0, 1, []⟩ : Tx)).length > MAX_PACKAGE_COUNT ∧
    CheckPackage (List.replicate 26 (⟨0, 0, 1, []⟩ : Tx)) =
      (false, ⟨false, PackageValidationResult.PCKG_POLICY,
        "package-too-many-transactions"⟩) :=
  ⟨by decide, C3_too_many_transactions _ (by decide)⟩

/-- C4 counterexample: a one-element package whose total virtual size
exceeds `MAX_PACKAGE_SIZE * 1000` has length at most `MAX_PACKAGE_COUNT`,
yet `CheckPackage` accepts it: the size rule does not apply to singleton
packages, whose size violation is instead reported item-level as "tx-size"
by per-transaction validation (spec §4.2 special case). -/
theorem C4_counterexample :
    ([(⟨0, 0, 101001, []⟩ : Tx)]).length ≤ MAX_PACKAGE_COUNT ∧
    totalVsize [(⟨0, 0, 101001, []⟩ : Tx)] > MAX_PACKAGE_SIZE * 1000 ∧
    (CheckPackage [(⟨0, 0, 101001, []⟩ : Tx)]).1 = true := by
  refine ⟨by decide, by decide, by decide⟩

/-- C4 (amended): a package of at least two and at most `MAX_PACKAGE_COUNT`
members whose summed virtual size exceeds `MAX_PACKAGE_SIZE * 1000` is
rejected at policy level with reason "package-too-large". -/
theorem C4_package_too_large (pkg : List Tx) (h2 : 2 ≤ pkg.length)
    (hc : pkg.length ≤ MAX_PACKAGE_COUNT)
    (hs : totalVsize pkg > MAX_PACKAGE_SIZE * 1000) :
    CheckPackage pkg =
      (false, ⟨false, PackageValidationResult.PCKG_POLICY,
        "package-too-large"⟩) := by
  unfold CheckPackage
  rw [if_neg (not_lt.mpr hc), if_pos ⟨by omega, hs⟩]

/-- Witness for the amended C4 at a concrete two-member package of summed
virtual size 120000. -/
theorem C4_package_too_large_witness :
    2 ≤ ([(⟨0, 0, 60000, []⟩ : Tx), (⟨1, 1, 60000, []⟩ : Tx)]).length ∧
    totalVsize [(⟨0, 0, 60000, []⟩ : Tx), (⟨1, 1, 60000, []⟩ : Tx)] >
      MAX_PACKAGE_SIZE * 1000 ∧
    CheckPackage [(⟨0, 0, 60000, []⟩ : Tx), (⟨1, 1, 60000, []⟩ : Tx)] =
      (false, ⟨false, PackageValidationResult.PCKG_POLICY,
        "package-too-large"⟩) :=
  ⟨by decide, by decide,
    C4_package_too_large _ (by decide) (by decide) (by decide)⟩

/-- C9: the Sanitizer's verdict depends only on the package's length and the
accumulated virtual size of its members — in particular it never checks
element distinctness, so a package repeating one transaction behaves exactly
like any package of equal length and total size. -/
theorem C9_verdict_ignores_distinctness (p1 p2 : List Tx)
    (hl : p1.length = p2.length) (hs : totalVsize p1 = totalVsize p2) :
    CheckPackage p1 = CheckPackage p2 := by
  unfold CheckPackage
  rw [hl, hs]

/-- Witness for C9: a package repeating one transaction three times gets the
same verdict as a package of three distinct transactions of equal length and
total size. -/
theorem C9_verdict_ignores_distinctness_witness :
    (List.replicate 3 (⟨7, 7, 50000, []⟩ : Tx)).length =
      ([(⟨1, 1, 50000, []⟩ : Tx), (⟨2, 2, 50000, []⟩ : Tx),
        (⟨3, 3, 50000, []⟩ : Tx)]).length ∧
    totalVsize (List.replicate 3 (⟨7, 7, 50000, []⟩ : Tx)) =
      totalVsize [(⟨1, 1, 50000, []⟩ : Tx), (⟨2, 2, 50000, []⟩ : Tx),
        (⟨3, 3, 50000, []⟩ : Tx)] ∧
    CheckPackage (List.replicate 3 (⟨7, 7, 50000, []⟩ : Tx)) =
      CheckPackage [(⟨1, 1, 50000, []⟩ : Tx), (⟨2, 2, 50000, []⟩ : Tx),
        (⟨3, 3, 50000, []⟩ : Tx)] :=
  ⟨by decide, by decide,
    C9_verdict_ignores_distinctness _ _ (by decide) (by decide)⟩

/-- The Sanitizer accepts every one-element package: the count rule sees one
member and the size rule only applies to packages of more than one member. -/
lemma CheckPackage_singleton (tx : Tx) :
    CheckPackage [tx] =
      (true, ⟨true, PackageValidationResult.PCKG_RESULT_UNSET, ""⟩) := by
  unfold CheckPackage
  rw [if_neg (by simp [MAX_PACKAGE_COUNT]), if_neg (by simp)]

/-! ### Claims about the Package Processor -/

/-- C1: a one-element package whose single transaction's virtual size
exceeds `MAX_PACKAGE_SIZE * 1000` passes the Sanitizer (singleton special
case) but fails per-transaction validation, so `ProcessNewPackage` returns
aggregate invalid with kind `PCKG_TX` and reason "transaction failed",
while the entry keyed by the transaction's witness identity carries reason
"tx-size". -/
theorem C1_singleton_oversized (E : Engine) (chain : Chainstate) (pool : Pool)
    (tx : Tx) (d : Bool) (h : tx.vsize > MAX_PACKAGE_SIZE * 1000) :
    (ProcessNewPackage E chain pool [tx] d).1 =
      ⟨⟨false, PackageValidationResult.PCKG_TX, "transaction failed"⟩,
       [(tx.wtxid, ⟨false, "tx-size"⟩)]⟩ := by
  simp [ProcessNewPackage, CheckPackage_singleton, processTxs, validateTx, h]

/-- Witness for C1 at a concrete transaction of virtual size 101001. -/
theorem C1_singleton_oversized_witness :
    (⟨0, 5, 101001, []⟩ : Tx).vsize > MAX_PACKAGE_SIZE * 1000 ∧
    (ProcessNewPackage acceptAll ⟨0⟩ ⟨[]⟩ [(⟨0, 5, 101001, []⟩ : Tx)] true).1 =
      ⟨⟨false, PackageValidationResult.PCKG_TX, "transaction failed"⟩,
       [(5, ⟨false, "tx-size"⟩)]⟩ :=
  ⟨by decide,
    C1_singleton_oversized acceptAll ⟨0⟩ ⟨[]⟩ ⟨0, 5, 101001, []⟩ true (by decide)⟩

/-- C2: for a package the Sanitizer accepts, the aggregate state is valid
iff every recorded member outcome is valid; an aggregate failure is exactly
kind `PCKG_TX` with reason "transaction failed"; and the per-transaction map
carries one entry per member, keyed by witness identity in package order. -/
theorem C2_aggregate_iff_members (E : Engine) (chain : Chainstate)
    (pool : Pool) (pkg : List Tx) (d : Bool)
    (hok : (CheckPackage pkg).1 = true) :
    ((ProcessNewPackage E chain pool pkg d).1.m_state.isValid = true ↔
      ∀ e ∈ (ProcessNewPackage E chain pool pkg d).1.m_tx_results,
        e.2.isValid = true) ∧
    ((ProcessNewPackage E chain pool pkg d).1.m_state.isValid = false →
      (ProcessNewPackage E chain pool pkg d).1.m_state =
        ⟨false, PackageValidationResult.PCKG_TX, "transaction failed"⟩) ∧
    ((ProcessNewPackage E chain pool pkg d).1.m_tx_results).map Prod.fst =
      pkg.map Tx.wtxid := by
  refine ⟨?_, ?_, processNewPackage_map_fst E chain pool pkg d hok⟩ <;>
    by_cases h : ((processTxs E chain d pool [] pkg).1).all
      (fun e => e.2.isValid)
  · simp [ProcessNewPackage, hok, h]
    intro a b hab
    exact List.all_eq_true.mp h (a, b) hab
  · simp only [Bool.not_eq_true] at h
    simp [ProcessNewPackage, hok, h]
    obtain ⟨e, he, hbad⟩ := List.all_eq_false.mp h
    refine ⟨e.1, e.2, ?_, ?_⟩
    · simpa using he
    · simpa using hbad
  · simp [ProcessNewPackage, hok, h]
  · simp [ProcessNewPackage, hok, h]

/-- Witness for C2 at a concrete two-member package under the accept-all
engine. -/
theorem C2_aggregate_iff_members_witness :
    (CheckPackage [(⟨1, 11, 100, []⟩ : Tx), (⟨2, 22, 100, []⟩ : Tx)]).1 =
      true ∧
    (((ProcessNewPackage acceptAll ⟨0⟩ ⟨[]⟩
        [(⟨1, 11, 100, []⟩ : Tx), (⟨2, 22, 100, []⟩ : Tx)]
        true).1.m_state.isValid = true ↔
      ∀ e ∈ (ProcessNewPackage acceptAll ⟨0⟩ ⟨[]⟩
        [(⟨1, 11, 100, []⟩ : Tx), (⟨2, 22, 100, []⟩ : Tx)]
        true).1.m_tx_results, e.2.isValid = true) ∧
    ((ProcessNewPackage acceptAll ⟨0⟩ ⟨[]⟩
        [(⟨1, 11, 100, []⟩ : Tx), (⟨2, 22, 100, []⟩ : Tx)]
        true).1.m_state.isValid = false →
      (ProcessNewPackage acceptAll ⟨0⟩ ⟨[]⟩
        [(⟨1, 11, 100, []⟩ : Tx), (⟨2, 22, 100, []⟩ : Tx)]
        true).1.m_state =
        ⟨false, PackageValidationResult.PCKG_TX, "transaction failed"⟩) ∧
    ((ProcessNewPackage acceptAll ⟨0⟩ ⟨[]⟩
        [(⟨1, 11, 100, []⟩ : Tx), (⟨2, 22, 100, []⟩ : Tx)]
        true).1.m_tx_results).map Prod.fst =
      ([(⟨1, 11, 100, []⟩ : Tx), (⟨2, 22, 100, []⟩ : Tx)]).map Tx.wtxid) :=
  ⟨by decide,
    C2_aggregate_iff_members acceptAll ⟨0⟩ ⟨[]⟩ _ true (by decide)⟩

/-- C5: a dry-run call never changes the pool's observable size, whether
made once or repeated with identical inputs. -/
theorem C5_dry_run_pool_unchanged (E : Engine) (chain : Chainstate)
    (pool : Pool) (pkg : List Tx) :
    (ProcessNewPackage E chain pool pkg true).2.size = pool.size ∧
    (ProcessNewPackage E chain
      (ProcessNewPackage E chain pool pkg true).2 pkg true).2.size =
      pool.size := by
  simp [processNewPackage_dry_pool]

/-- C6: a Sanitizer failure makes `ProcessNewPackage` in commit mode return
the Sanitizer's state with an empty per-transaction map and the pool
untouched; when the Sanitizer accepts, the final pool is the initial pool
extended by exactly the individually-valid members, independently of
sibling failures. -/
theorem C6_policy_reject_blocks_commit (E : Engine) (chain : Chainstate)
    (pool : Pool) (pkg : List Tx) :
    ((CheckPackage pkg).1 = false →
      ProcessNewPackage E chain pool pkg false =
        (⟨(CheckPackage pkg).2, []⟩, pool)) ∧
    ((CheckPackage pkg).1 = true →
      (ProcessNewPackage E chain pool pkg false).2.txs =
        pool.txs ++ committedOf pkg
          (ProcessNewPackage E chain pool pkg false).1.m_tx_results) := by
  constructor
  · intro hbad
    simp [ProcessNewPackage, hbad]
  · intro hok
    by_cases h : ((processTxs E chain false pool [] pkg).1).all
        (fun e => e.2.isValid) <;>
      · simp [ProcessNewPackage, hok, h]
        exact processTxs_commit_pool E chain pkg pool []

/-- Witness for C6: a 26-member package is policy-rejected with no commit
and no per-transaction outcomes; a Sanitizer-passing two-member package
commits exactly its individually-valid members. -/
theorem C6_policy_reject_blocks_commit_witness :
    (CheckPackage (List.replicate 26 (⟨0, 0, 1, []⟩ : Tx))).1 = false ∧
    ProcessNewPackage acceptAll ⟨0⟩ ⟨[]⟩
        (List.replicate 26 (⟨0, 0, 1, []⟩ : Tx)) false =
      (⟨(CheckPackage (List.replicate 26 (⟨0, 0, 1, []⟩ : Tx))).2, []⟩,
        ⟨[]⟩) ∧
    (CheckPackage [(⟨1, 11, 100, []⟩ : Tx), (⟨2, 22, 100, []⟩ : Tx)]).1 =
      true ∧
    (ProcessNewPackage acceptAll ⟨0⟩ ⟨[]⟩
        [(⟨1, 11, 100, []⟩ : Tx), (⟨2, 22, 100, []⟩ : Tx)] false).2.txs =
      (⟨[]⟩ : Pool).txs ++ committedOf
        [(⟨1, 11, 100, []⟩ : Tx), (⟨2, 22, 100, []⟩ : Tx)]
        (ProcessNewPackage acceptAll ⟨0⟩ ⟨[]⟩
          [(⟨1, 11, 100, []⟩ : Tx),
           (⟨2, 22, 100, []⟩ : Tx)] false).1.m_tx_results :=
  ⟨by decide,
    (C6_policy_reject_blocks_commit acceptAll ⟨0⟩ ⟨[]⟩ _).1 (by decide),
    by decide,
    (C6_policy_reject_blocks_commit acceptAll ⟨0⟩ ⟨[]⟩ _).2 (by decide)⟩

/-- C7: a two-member package within the size limit whose second member
spends an output of the first, with both members accepted by the Validation
Engine (the child validated against the in-package view holding the
parent), yields in dry-run mode an aggregate valid result, valid entries
keyed by both witness identities, and an unchanged pool size. -/
theorem C7_parent_child_dry_run (E : Engine) (chain : Chainstate)
    (pool : Pool) (p c : Tx) (i : Nat) (hspend : (p.txid, i) ∈ c.inputs)
    (hsize : p.vsize + c.vsize ≤ MAX_PACKAGE_SIZE * 1000)
    (hp : E chain pool [] p = ⟨true, ""⟩)
    (hc : E chain pool [p] c = ⟨true, ""⟩) :
    (ProcessNewPackage E chain pool [p, c] true).1.m_state.isValid = true ∧
    (ProcessNewPackage E chain pool [p, c] true).1.m_tx_results =
      [(p.wtxid, ⟨true, ""⟩), (c.wtxid, ⟨true, ""⟩)] ∧
    (ProcessNewPackage E chain pool [p, c] true).2.size = pool.size := by
  have hck : CheckPackage [p, c] =
      (true, ⟨true, PackageValidationResult.PCKG_RESULT_UNSET, ""⟩) := by
    unfold CheckPackage
    rw [if_neg (by simp [MAX_PACKAGE_COUNT]),
        if_neg (by rintro ⟨-, hgt⟩; simp [totalVsize] at hgt; omega)]
  have hpv : ¬ p.vsize > MAX_PACKAGE_SIZE * 1000 := by omega
  have hcv : ¬ c.vsize > MAX_PACKAGE_SIZE * 1000 := by omega
  simp [ProcessNewPackage, hck, processTxs, validateTx, hpv, hcv, hp, hc,
    Pool.size]

/-- Witness for C7 at a concrete parent/child pair under the accept-all
engine. -/
theorem C7_parent_child_dry_run_witness :
    ((1 : Nat), (0 : Nat)) ∈ (⟨2, 22, 100, [(1, 0)]⟩ : Tx).inputs ∧
    (⟨1, 11, 100, []⟩ : Tx).vsize + (⟨2, 22, 100, [(1, 0)]⟩ : Tx).vsize ≤
      MAX_PACKAGE_SIZE * 1000 ∧
    ((ProcessNewPackage acceptAll ⟨0⟩ ⟨[]⟩
        [(⟨1, 11, 100, []⟩ : Tx), (⟨2, 22, 100, [(1, 0)]⟩ : Tx)]
        true).1.m_state.isValid = true ∧
     (ProcessNewPackage acceptAll ⟨0⟩ ⟨[]⟩
        [(⟨1, 11, 100, []⟩ : Tx), (⟨2, 22, 100, [(1, 0)]⟩ : Tx)]
        true).1.m_tx_results =
       [(11, ⟨true, ""⟩), (22, ⟨true, ""⟩)] ∧
     (ProcessNewPackage acceptAll ⟨0⟩ ⟨[]⟩
        [(⟨1, 11, 100, []⟩ : Tx), (⟨2, 22, 100, [(1, 0)]⟩ : Tx)]
        true).2.size = (⟨[]⟩ : Pool).size) :=
  ⟨by decide, by decide,
    C7_parent_child_dry_run acceptAll ⟨0⟩ ⟨[]⟩ ⟨1, 11, 100, []⟩
      ⟨2, 22, 100, [(1, 0)]⟩ 0 (by decide) (by decide) rfl rfl⟩

/-- C8: `ProcessNewPackage` is deterministic — identical chainstate, pool
and package content give identical results — and for a Sanitizer-passing
package the per-transaction outcomes are keyed strictly in package order. -/
theorem C8_deterministic (E : Engine) (c1 c2 : Chainstate)
    (pool1 pool2 : Pool) (pkg1 pkg2 : List Tx) (d : Bool)
    (hchain : c1 = c2) (hpool : pool1 = pool2) (hpkg : pkg1 = pkg2) :
    ProcessNewPackage E c1 pool1 pkg1 d =
      ProcessNewPackage E c2 pool2 pkg2 d ∧
    ((CheckPackage pkg1).1 = true →
      ((ProcessNewPackage E c1 pool1 pkg1 d).1.m_tx_results).map Prod.fst =
        pkg1.map Tx.wtxid) := by
  subst hchain
  subst hpool
  subst hpkg
  exact ⟨rfl, fun hok => processNewPackage_map_fst E c1 pool1 pkg1 d hok⟩

/-- Witness for C8 at a concrete singleton package. -/
theorem C8_deterministic_witness :
    ProcessNewPackage acceptAll ⟨0⟩ ⟨[]⟩ [(⟨1, 11, 100, []⟩ : Tx)] true =
      ProcessNewPackage acceptAll ⟨0⟩ ⟨[]⟩ [(⟨1, 11, 100, []⟩ : Tx)] true ∧
    ((CheckPackage [(⟨1, 11, 100, []⟩ : Tx)]).1 = true →
      ((ProcessNewPackage acceptAll ⟨0⟩ ⟨[]⟩ [(⟨1, 11, 100, []⟩ : Tx)]
        true).1.m_tx_results).map Prod.fst =
        ([(⟨1, 11, 100, []⟩ : Tx)]).map Tx.wtxid) :=
  C8_deterministic acceptAll ⟨0⟩ ⟨0⟩ ⟨[]⟩ ⟨[]⟩ _ _ true rfl rfl rfl

/-! ### Claim about the warning store -/

/-- C10: the large-work-fork warning takes strict precedence over the
large-work-invalid-chain warning: the invalid-chain warning is collected by
`GetWarnings` exactly when `fLargeWorkInvalidChainFound` is set and
`fLargeWorkForkFound` is not; when both flags are set only the fork warning
of the two is collected (if/else-if, `src/warnings.cpp` lines 63-69). -/
theorem C10_fork_warning_precedence (rel : Bool) (s : WarningsState) :
    (Warning.largeWorkInvalidChain ∈ GetWarningsList rel s ↔
      s.fLargeWorkInvalidChainFound = true ∧
      s.fLargeWorkForkFound = false) ∧
    (s.fLargeWorkForkFound = true → s.fLargeWorkInvalidChainFound = true →
      Warning.largeWorkFork ∈ GetWarningsList rel s ∧
      Warning.largeWorkInvalidChain ∉ GetWarningsList rel s) := by
  rcases s with ⟨m, f, ic⟩
  cases rel <;> cases f <;> cases ic <;> by_cases hm : m = "" <;>
    simp [GetWarningsList, hm]

/-- Witness for C10 with both flags set. -/
theorem C10_fork_warning_precedence_witness :
    (Warning.largeWorkInvalidChain ∈
        GetWarningsList true ⟨"", true, true⟩ ↔
      (⟨"", true, true⟩ : WarningsState).fLargeWorkInvalidChainFound = true ∧
      (⟨"", true, true⟩ : WarningsState).fLargeWorkForkFound = false) ∧
    ((⟨"", true, true⟩ : WarningsState).fLargeWorkForkFound = true →
      (⟨"", true, true⟩ : WarningsState).fLargeWorkInvalidChainFound = true →
      Warning.largeWorkFork ∈ GetWarningsList true ⟨"", true, true⟩ ∧
      Warning.largeWorkInvalidChain ∉
        GetWarningsList true ⟨"", true, true⟩) :=
  C10_fork_warning_precedence true ⟨"", true, true⟩
